import Mathlib

/-!
Verification of the natural-language specification of the NL-SQL repository
against a shallow embedding of `src/main.py`.

Python strings are modelled as `List Char` (`Str`).  Python's `str.strip`,
`str.split("\n")`, `"\n".join`, `str.startswith`, `str.endswith`, `in`
(substring test) and `str.lower` are modelled by executable functions below;
`urllib.parse.urlparse`'s scheme extraction and IPv6-bracket validation
(CPython 3.11 `urlsplit`) are modelled by `urlparseScheme`.  External
collaborators (the OpenAI client, SQLAlchemy execution, pymongo, `json`
parsing of model output) are modelled as oracle fields of `Env`; the JSON
round trip `json.loads (json.dumps rows) = rows` used by the history store is
modelled as the identity on structured rows.
-/

/-- Python strings as lists of characters. -/
abbrev Str := List Char

/-- Characters removed by Python `str.strip()` (ASCII whitespace). -/
def isPySpace (c : Char) : Bool :=
  c == ' ' || c == '\t' || c == '\n' || c == '\r' || c == '\x0b' || c == '\x0c'

/-- Python `str.lstrip()`. -/
def lstripL (l : Str) : Str := l.dropWhile isPySpace

/-- Python `str.rstrip()`. -/
def rstripL (l : Str) : Str := (l.reverse.dropWhile isPySpace).reverse

/-- Python `str.strip()`. -/
def stripL (l : Str) : Str := rstripL (lstripL l)

/-- Python `s.split("\n")` (always a non-empty list of lines). -/
def splitNL : Str → List Str
  | [] => [[]]
  | c :: rest =>
    if c = '\n' then [] :: splitNL rest
    else (c :: (splitNL rest).headI) :: (splitNL rest).tail

/-- Python `"\n".join(lines)`. -/
def joinNL : List Str → Str
  | [] => []
  | [l] => l
  | l :: h :: t => l ++ '\n' :: joinNL (h :: t)

/-- Python `s.startswith(p)`. -/
def pyStartsWith (s p : Str) : Bool := p.isPrefixOf s

/-- Python `s.endswith(p)`. -/
def pyEndsWith (s p : Str) : Bool := p.isSuffixOf s

/-- Python `pat in s` (substring containment). -/
def isInfixL (pat : Str) : Str → Bool
  | [] => pat.isEmpty
  | c :: rest => pat.isPrefixOf (c :: rest) || isInfixL pat rest

/-- Python `s.lower()` (ASCII model). -/
def lowerStr (s : Str) : Str := s.map Char.toLower

/-- Python regex word character `\w` (ASCII model). -/
def isWordChar (c : Char) : Bool := c.isAlphanum || c == '_'

/-- The literal `w` occurs in `cs` starting at position `i`. -/
def literalAt (cs : Str) (i : Nat) (w : Str) : Bool := w.isPrefixOf (cs.drop i)

/-- Position `i` of `cs` is past the end or holds a non-word character. -/
def noWordAt (cs : Str) (i : Nat) : Bool :=
  match cs.drop i with
  | [] => true
  | c :: _ => !isWordChar c

/-- Word boundary test before position `i` (the character at `i` being a word
character): `i` is the start of the string or is preceded by a non-word
character. -/
def noWordBefore (cs : Str) (i : Nat) : Bool := i == 0 || noWordAt cs (i - 1)

/-- Model of `re.search(r"\b(?:list|show)\b.*\btables?\b", question,
re.IGNORECASE)` from `src/main.py` line 141: some position `i` starts a
word-bounded `list` or `show`, and some position `k` at or after `i + 4`
starts a word-bounded `table` or `tables`, with no newline in between (`.`
does not match a newline). -/
def matchesListTables (question : Str) : Bool :=
  let cs := lowerStr question
  (List.range (cs.length + 1)).any fun i =>
    (literalAt cs i "list".data || literalAt cs i "show".data) &&
    noWordBefore cs i && noWordAt cs (i + 4) &&
    ((List.range (cs.length + 1)).any fun k =>
      decide (i + 4 ≤ k) && noWordBefore cs k &&
      ((literalAt cs k "tables".data && noWordAt cs (k + 6)) ||
       (literalAt cs k "table".data && noWordAt cs (k + 5))) &&
      ((cs.drop (i + 4)).take (k - (i + 4))).all (fun c => !(c == '\n')))

/-- WHATWG C0 control or space characters, stripped from the front of a URL
by CPython `urlsplit`. -/
def isC0OrSpace (c : Char) : Bool := decide (c.val ≤ 32)

/-- Characters allowed in a URL scheme after the first (CPython
`scheme_chars`). -/
def isSchemeChar (c : Char) : Bool :=
  c.isAlpha || c.isDigit || c == '+' || c == '-' || c == '.'

/-- Model of CPython `urllib.parse.urlsplit` restricted to what
`src/main.py` line 104 uses: the (lowercased) scheme, together with the
mismatched-IPv6-bracket validation of the authority, which raises
`ValueError("Invalid IPv6 URL")`.  An uncaught `ValueError` is returned as
`Except.error`.  (CPython 3.11+ additionally validates well-bracketed hosts
as IP addresses; that extra check is not modelled, so the model may accept
some URLs that newer interpreters reject — it never rejects a URL that
CPython accepts.) -/
def urlparseScheme (url : Str) : Except Str Str :=
  let u := (url.dropWhile isC0OrSpace).filter
    (fun c => !(c == '\t' || c == '\r' || c == '\n'))
  let p :=
    match List.findIdx? (fun c => c == ':') u with
    | some i =>
      if 0 < i &&
         (match u.head? with
          | some c => decide (c.val ≤ 127) && c.isAlpha
          | none => false) &&
         (u.take i).all isSchemeChar
      then (lowerStr (u.take i), u.drop (i + 1))
      else (([] : Str), u)
    | none => (([] : Str), u)
  if p.2.take 2 = "//".data then
    let netloc := (p.2.drop 2).takeWhile (fun c => !(c == '/' || c == '?' || c == '#'))
    if (netloc.contains '[' && !netloc.contains ']') ||
       (netloc.contains ']' && !netloc.contains '[') then
      .error "Invalid IPv6 URL".data
    else .ok p.1
  else .ok p.1

/-- Backend families distinguished by the pipeline (spec section 6 dispatch
table; the `startswith` checks of `src/main.py` lines 21-27, 106, 176, 200). -/
inductive DialectTarget where
  | documentStore
  | postgres
  | mysql
  | sqlite
  | otherSql
  deriving DecidableEq

/-- Classification of a parsed scheme by its prefix, mirroring the
`startswith` dispatch in `src/main.py`. -/
def classifyScheme (scheme : Str) : DialectTarget :=
  if pyStartsWith scheme "mongodb".data then .documentStore
  else if pyStartsWith scheme "postgres".data then .postgres
  else if pyStartsWith scheme "mysql".data then .mysql
  else if pyStartsWith scheme "sqlite".data then .sqlite
  else .otherSql

/-- Dialect resolution from a raw connection URL: URL parsing followed by
scheme classification. -/
def resolveDialect (url : Str) : Except Str DialectTarget :=
  (urlparseScheme url).map classifyScheme

/-- The fixed sqlite table-listing query (`src/main.py` lines 26 and 201). -/
def sqliteMasterQuery : Str :=
  "SELECT name FROM sqlite_master WHERE type=\x27table\x27;".data

/-- Model of `get_list_tables_query` (`src/main.py` lines 19-28). -/
def get_list_tables_query (dialect : Str) : Str :=
  if pyStartsWith dialect "postgres".data then
    "SELECT table_name FROM information_schema.tables WHERE table_schema=\x27public\x27;".data
  else if pyStartsWith dialect "mysql".data then
    "SHOW TABLES;".data
  else if pyStartsWith dialect "sqlite".data then
    "SELECT name FROM sqlite_master WHERE type=\x27table\x27;".data
  else
    []

/-- Output sanitizer, mode-independent part (`src/main.py` lines 120-122 and
196-198): strip surrounding whitespace; if the text starts with a triple
backtick fence, drop the first and last line and strip again. -/
def sanitize (raw : Str) : Str :=
  let content := stripL raw
  if pyStartsWith content "```".data then
    stripL (joinNL (((splitNL content).drop 1).dropLast))
  else content

/-- The sqlite `information_schema` rewrite (`src/main.py` lines 199-201). -/
def sqliteRewrite (scheme sql : Str) : Str :=
  if pyStartsWith scheme "sqlite".data &&
     isInfixL "information_schema.tables".data (lowerStr sql) then
    sqliteMasterQuery
  else sql

/-- SQL-mode finalization of a raw model output (`src/main.py` lines
196-203): sanitize, apply the sqlite rewrite, then append a terminator if
absent. -/
def finalizeSql (scheme raw : Str) : Str :=
  let s := sqliteRewrite scheme (sanitize raw)
  if pyEndsWith s ";".data then s else s ++ ";".data

/-- A result row: a mapping from column or field name to a (JSON-representable)
value, the value rendered as text. -/
abbrev Row := List (Str × Str)

/-- The parsed document-store query specification (`collection` and `filter`
keys of the model's JSON output, `src/main.py` lines 123-125); the filter is
kept as opaque text. -/
structure DocSpec where
  collection : Str
  filter : Str
  deriving DecidableEq

/-- Outcome of schema introspection (`src/main.py` lines 160-171).
`engineFail`: `create_engine` raised, so `metadata` stayed `None`.
`reflectFail`: `MetaData()` was constructed but `reflect` raised; `metadata`
is non-`None` and holds the (possibly empty) tables reflected before the
failure.  `ok`: reflection succeeded with the given table-to-columns list. -/
inductive IntrospectResult where
  | engineFail
  | reflectFail (tables : List (Str × List Str))
  | ok (tables : List (Str × List Str))
  deriving DecidableEq

/-- The `available` string of `src/main.py` line 224:
`', '.join(metadata.tables.keys()) if metadata else ''`. -/
def availableOf : IntrospectResult → Str
  | .engineFail => []
  | .reflectFail ts => List.intercalate ", ".data (ts.map (·.1))
  | .ok ts => List.intercalate ", ".data (ts.map (·.1))

/-- An HTTP response of the `/query` handler: `ok` is a 200 response carrying
the `QueryResponse` fields (`sql`, `columns`, `rows`); `err` carries the
status and detail of an `HTTPException` (or of the generic 500 handler). -/
inductive Resp where
  | ok (sql : Str) (columns : List Str) (rows : List Row)
  | err (status : Nat) (detail : Str)
  deriving DecidableEq

/-- HTTP status of a response. -/
def Resp.status : Resp → Nat
  | .ok _ _ _ => 200
  | .err s _ => s

/-- Per-request environment: the request fields plus oracles for every
external collaborator of the pipeline.  `modelOut` is the raw text returned
by `openai.ChatCompletion.create` (or the exception message if it raised);
`jsonParse` models `json.loads` plus the `collection`/`filter` field access
on the parsed value; `execMongo`, `execListTables` and `execSql` model query
execution against the target backend (`execSql` returns `none` inside `ok`
when the statement produces no row set, i.e. `result.returns_rows` is
false); `historyOk` tells whether the history insert succeeds; `now` is the
timestamp. -/
structure Env where
  url : Str
  question : Str
  introspection : IntrospectResult
  modelOut : Except Str Str
  jsonParse : Str → Except Str DocSpec
  execMongo : DocSpec → Except Str (List Str × List Row)
  execListTables : Str → Except Str (List Str × List Row)
  execSql : Str → Except Str (Option (List Str × List Row))
  historyOk : Bool
  now : Str

/-- A persisted history row (`query_history` table, `src/main.py` lines
45-51).  The `result` column stores `json.dumps(rows)`; the JSON round trip
is modelled as the identity, so `result` holds the structured rows. -/
structure HistoryEntryM where
  id : Nat
  question : Str
  sql : Str
  result : List Row
  created_at : Str
  deriving DecidableEq

/-- History append (`src/main.py` lines 228-239): insert one row, with any
failure swallowed (`except Exception: pass`). -/
def appendEntry (store : List HistoryEntryM) (q s : Str) (rows : List Row)
    (now : Str) (ok : Bool) : List HistoryEntryM :=
  if ok then store ++ [⟨store.length + 1, q, s, rows, now⟩] else store

/-- The response computation of `translate_and_query` (`src/main.py` lines
101-227 and 241-243): URL parsing, dialect dispatch, the document-store
branch, the list-tables shortcut, and the general SQL branch with its error
enrichment.  History persistence is handled separately by
`translate_and_query`. -/
def pipelineCore (env : Env) : Resp :=
  match urlparseScheme env.url with
  | .error e => .err 500 e
  | .ok scheme =>
    if pyStartsWith scheme "mongodb".data then
      match env.modelOut with
      | .error e => .err 500 ("Error generating MongoDB query: ".data ++ e)
      | .ok raw =>
        match env.jsonParse (sanitize raw) with
        | .error e => .err 500 ("Error generating MongoDB query: ".data ++ e)
        | .ok spec =>
          match env.execMongo spec with
          | .error e => .err 400 ("MongoDB execution error: ".data ++ e)
          | .ok (cols, rows) => .ok (sanitize raw) cols rows
    else
      let lq := get_list_tables_query scheme
      if matchesListTables env.question && !lq.isEmpty then
        match env.execListTables lq with
        | .error e => .err 400 ("Error executing list tables query: ".data ++ e)
        | .ok (cols, rows) => .ok lq cols rows
      else
        match env.modelOut with
        | .error e => .err 500 ("Error generating SQL: ".data ++ e)
        | .ok raw =>
          let sql := finalizeSql scheme raw
          match env.execSql sql with
          | .error msg =>
            if isInfixL "does not exist".data msg ||
               isInfixL "UndefinedTable".data msg then
              .err 400 (msg ++ ". Available tables: ".data ++ availableOf env.introspection)
            else
              .err 400 ("SQL execution error: ".data ++ msg)
          | .ok none => .ok sql [] []
          | .ok (some (cols, rows)) => .ok sql cols rows

/-- Model of the `/query` handler `translate_and_query` (`src/main.py` lines
101-243): the response together with the updated history store.  The history
row is appended exactly on success paths, carrying the displayed query text
and the result rows; a raised `HTTPException` skips the append. -/
def translate_and_query (env : Env) (store : List HistoryEntryM) :
    Resp × List HistoryEntryM :=
  match pipelineCore env with
  | .ok s c r => (.ok s c r, appendEntry store env.question s r env.now env.historyOk)
  | .err st d => (.err st d, store)

/-- An item returned by `/history` (`src/main.py` lines 94-99): `rows` is the
`result` column deserialized back into structured rows. -/
structure HistoryItemM where
  id : Nat
  question : Str
  sql : Str
  rows : List Row
  created_at : Str
  deriving DecidableEq

/-- Comparison used to model `ORDER BY created_at DESC`: `a` sorts before `b`
when `b`'s timestamp is at most `a`'s (SQLite compares TEXT byte-wise, which
on ISO-8601 UTF-8 text coincides with lexicographic codepoint order). -/
def laterEq (a b : HistoryEntryM) : Prop := b.created_at ≤ a.created_at

instance : DecidableRel laterEq := fun a b =>
  inferInstanceAs (Decidable (b.created_at ≤ a.created_at))

instance : IsTotal HistoryEntryM laterEq :=
  ⟨fun a b => (le_total b.created_at a.created_at).imp id id⟩

instance : IsTrans HistoryEntryM laterEq :=
  ⟨fun _ _ _ hab hbc => le_trans hbc hab⟩

/-- Conversion of a stored row to a `/history` item, deserializing `result`
into `rows` (JSON round trip modelled as the identity). -/
def toItem (e : HistoryEntryM) : HistoryItemM :=
  ⟨e.id, e.question, e.sql, e.result, e.created_at⟩

/-- Model of the `/history` handler `get_history` (`src/main.py` lines
245-264): `SELECT ... ORDER BY created_at DESC LIMIT :limit` over the store,
each row deserialized into a `HistoryItemM`. -/
def get_history (store : List HistoryEntryM) (limit : Nat) : List HistoryItemM :=
  ((List.insertionSort laterEq store).take limit).map toItem

/-! Helper lemmas about the Python string model. -/

theorem pyStartsWith_append_self (p t : Str) : pyStartsWith (p ++ t) p = true := by
  simp [pyStartsWith]

theorem exists_append_of_pyStartsWith {s p : Str} (h : pyStartsWith s p = true) :
    ∃ t, s = p ++ t := by
  rw [pyStartsWith, List.isPrefixOf_iff_prefix] at h
  obtain ⟨t, ht⟩ := h
  exact ⟨t, ht.symm⟩

theorem pyStartsWith_false_head {a b : Char} (hne : b ≠ a) {p q s : Str}
    (h : pyStartsWith s (a :: p) = true) : pyStartsWith s (b :: q) = false := by
  obtain ⟨t, rfl⟩ := exists_append_of_pyStartsWith h
  rw [pyStartsWith, Bool.eq_false_iff]
  intro hc
  rw [List.isPrefixOf_iff_prefix, List.cons_append, List.cons_prefix_cons] at hc
  exact hne hc.1

theorem pyStartsWith_false_second {a b c : Char} (hne : c ≠ b) {p q s : Str}
    (h : pyStartsWith s (a :: b :: p) = true) :
    pyStartsWith s (a :: c :: q) = false := by
  obtain ⟨t, rfl⟩ := exists_append_of_pyStartsWith h
  rw [pyStartsWith, Bool.eq_false_iff]
  intro hc
  rw [List.isPrefixOf_iff_prefix, List.cons_append, List.cons_append,
    List.cons_prefix_cons, List.cons_prefix_cons] at hc
  exact hne hc.2.1

theorem not_mongodb_of_postgres {s : Str} (h : pyStartsWith s "postgres".data = true) :
    pyStartsWith s "mongodb".data = false :=
  pyStartsWith_false_head (by decide) h

theorem not_mongodb_of_mysql {s : Str} (h : pyStartsWith s "mysql".data = true) :
    pyStartsWith s "mongodb".data = false :=
  pyStartsWith_false_second (by decide) h

theorem not_mongodb_of_sqlite {s : Str} (h : pyStartsWith s "sqlite".data = true) :
    pyStartsWith s "mongodb".data = false :=
  pyStartsWith_false_head (by decide) h

theorem not_postgres_of_mysql {s : Str} (h : pyStartsWith s "mysql".data = true) :
    pyStartsWith s "postgres".data = false :=
  pyStartsWith_false_head (by decide) h

theorem not_postgres_of_sqlite {s : Str} (h : pyStartsWith s "sqlite".data = true) :
    pyStartsWith s "postgres".data = false :=
  pyStartsWith_false_head (by decide) h

theorem not_mysql_of_sqlite {s : Str} (h : pyStartsWith s "sqlite".data = true) :
    pyStartsWith s "mysql".data = false :=
  pyStartsWith_false_head (by decide) h

theorem not_mysql_of_postgres {s : Str} (h : pyStartsWith s "postgres".data = true) :
    pyStartsWith s "mysql".data = false :=
  pyStartsWith_false_head (by decide) h

theorem not_sqlite_of_postgres {s : Str} (h : pyStartsWith s "postgres".data = true) :
    pyStartsWith s "sqlite".data = false :=
  pyStartsWith_false_head (by decide) h

theorem not_sqlite_of_mysql {s : Str} (h : pyStartsWith s "mysql".data = true) :
    pyStartsWith s "sqlite".data = false :=
  pyStartsWith_false_head (by decide) h

theorem pyEndsWith_append_semi (s : Str) : pyEndsWith (s ++ ";".data) ";".data = true := by
  rw [pyEndsWith, List.isSuffixOf_iff_suffix]
  exact List.suffix_append s ";".data

/-! Lemmas about `splitNL`, `joinNL` and the strip functions. -/

theorem splitNL_ne_nil (l : Str) : splitNL l ≠ [] := by
  cases l with
  | nil => simp [splitNL]
  | cons c rest =>
    rw [splitNL]
    split <;> simp

theorem splitNL_cons_nl (rest : Str) : splitNL ('\n' :: rest) = [] :: splitNL rest := by
  rw [splitNL]
  simp

theorem splitNL_of_no_nl {l : Str} (h : '\n' ∉ l) : splitNL l = [l] := by
  induction l with
  | nil => rfl
  | cons c rest ih =>
    have hc : c ≠ '\n' := fun hceq => h (hceq ▸ List.mem_cons_self c rest)
    have hrest : '\n' ∉ rest := fun hm => h (List.mem_cons_of_mem c hm)
    rw [splitNL, if_neg hc, ih hrest]
    simp

theorem splitNL_append_cons {a : Str} (r : Str) (h : '\n' ∉ a) :
    splitNL (a ++ '\n' :: r) = a :: splitNL r := by
  induction a with
  | nil => simpa using splitNL_cons_nl r
  | cons c a' ih =>
    have hc : c ≠ '\n' := fun hceq => h (hceq ▸ List.mem_cons_self c a')
    have ha' : '\n' ∉ a' := fun hm => h (List.mem_cons_of_mem c hm)
    rw [List.cons_append, splitNL, if_neg hc, ih ha']
    simp

theorem splitNL_append_last {x a : Str} (h : '\n' ∉ a) :
    splitNL (x ++ '\n' :: a) = splitNL x ++ [a] := by
  induction x with
  | nil => rw [List.nil_append, splitNL_cons_nl, splitNL_of_no_nl h]; rfl
  | cons c x' ih =>
    by_cases hc : c = '\n'
    · subst hc
      rw [List.cons_append, splitNL_cons_nl, splitNL_cons_nl, ih, List.cons_append]
    · obtain ⟨h0, t0, hx⟩ := List.exists_cons_of_ne_nil (splitNL_ne_nil x')
      rw [List.cons_append, splitNL, if_neg hc, ih, hx, List.cons_append, splitNL,
        if_neg hc, hx]
      simp

theorem joinNL_splitNL (l : Str) : joinNL (splitNL l) = l := by
  induction l with
  | nil => rfl
  | cons c rest ih =>
    obtain ⟨h0, t0, hx⟩ := List.exists_cons_of_ne_nil (splitNL_ne_nil rest)
    by_cases hc : c = '\n'
    · subst hc
      rw [splitNL_cons_nl, hx, joinNL, List.nil_append, ← hx, ih]
    · rw [splitNL, if_neg hc, hx]
      simp only [List.headI, List.tail_cons]
      cases t0 with
      | nil =>
        rw [joinNL]
        rw [hx, joinNL] at ih
        rw [ih]
      | cons t1 t2 =>
        rw [joinNL]
        rw [hx, joinNL] at ih
        rw [List.cons_append, ih]

theorem lstripL_cons_of_not_space {c : Char} (l : Str) (hc : isPySpace c = false) :
    lstripL (c :: l) = c :: l := by
  rw [lstripL, List.dropWhile_cons, hc]
  simp

theorem rstripL_append {l' b : Str} {c : Char} (hc : isPySpace c = false) :
    rstripL ((l' ++ [c]) ++ b) = (l' ++ [c]) ++ rstripL b := by
  rw [rstripL, rstripL]
  rw [show ((l' ++ [c]) ++ b).reverse = b.reverse ++ (c :: l'.reverse) by simp]
  rw [List.dropWhile_append]
  split
  · next hemp =>
    rw [List.dropWhile_cons, hc, List.isEmpty_iff.mp hemp]
    simp
  · simp

theorem mem_of_mem_rstripL {x : Char} {l : Str} (h : x ∈ rstripL l) : x ∈ l := by
  rw [rstripL, List.mem_reverse] at h
  exact List.mem_reverse.mp ((List.dropWhile_sublist _).subset h)

theorem not_nl_append_ticks {b : Str} (hb : '\n' ∉ b) :
    '\n' ∉ "```".data ++ rstripL b := by
  intro hmem
  rcases List.mem_append.mp hmem with h1 | h1
  · revert h1
    decide
  · exact hb (mem_of_mem_rstripL h1)

theorem lstripL_eq_self {l : Str} {c : Char} (h : l.head? = some c)
    (hc : isPySpace c = false) : lstripL l = l := by
  cases l with
  | nil => simp at h
  | cons a rest =>
    rw [List.head?_cons] at h
    injection h with h
    subst h
    exact lstripL_cons_of_not_space rest hc

theorem stripL_mid {A t b z' : Str} {ac zc : Char}
    (hA : A.head? = some ac) (hac : isPySpace ac = false)
    (hzc : isPySpace zc = false) :
    stripL (A ++ '\n' :: (t ++ '\n' :: ((z' ++ [zc]) ++ b)))
      = A ++ '\n' :: (t ++ '\n' :: ((z' ++ [zc]) ++ rstripL b)) := by
  rw [stripL]
  have hL : lstripL (A ++ '\n' :: (t ++ '\n' :: ((z' ++ [zc]) ++ b)))
      = A ++ '\n' :: (t ++ '\n' :: ((z' ++ [zc]) ++ b)) := by
    apply lstripL_eq_self _ hac
    cases A with
    | nil => simp at hA
    | cons x rest =>
      rw [List.head?_cons] at hA
      rw [List.cons_append, List.head?_cons]
      exact hA
  rw [hL]
  rw [show A ++ '\n' :: (t ++ '\n' :: ((z' ++ [zc]) ++ b))
      = ((A ++ '\n' :: (t ++ '\n' :: z')) ++ [zc]) ++ b by simp]
  rw [rstripL_append hzc]
  simp

theorem not_nl_ticks_append {a : Str} (ha : '\n' ∉ a) : '\n' ∉ "```".data ++ a := by
  intro hmem
  rcases List.mem_append.mp hmem with h1 | h1
  · revert h1
    decide
  · exact ha h1

theorem sanitize_fenced (a t b : Str) (ha : '\n' ∉ a) (hb : '\n' ∉ b) :
    sanitize (("```".data ++ a) ++ '\n' :: (t ++ '\n' :: ("```".data ++ b)))
      = stripL t := by
  have htick : "``".data ++ ["`".data.headI] = "```".data := by decide
  have hstrip : stripL (("```".data ++ a) ++ '\n' :: (t ++ '\n' :: ("```".data ++ b)))
      = ("```".data ++ a) ++ '\n' :: (t ++ '\n' :: ("```".data ++ rstripL b)) := by
    nth_rewrite 2 4 [← htick]
    exact stripL_mid rfl (by decide) (by decide)
  simp only [sanitize]
  rw [hstrip]
  have hsw : pyStartsWith
      (("```".data ++ a) ++ '\n' :: (t ++ '\n' :: ("```".data ++ rstripL b)))
      "```".data = true := by
    rw [List.append_assoc]
    exact pyStartsWith_append_self _ _
  rw [if_pos hsw]
  rw [splitNL_append_cons (t ++ '\n' :: ("```".data ++ rstripL b)) (not_nl_ticks_append ha)]
  rw [splitNL_append_last (not_nl_ticks_append (fun hm => hb (mem_of_mem_rstripL hm)))]
  simp only [List.drop_succ_cons, List.drop_zero, List.dropLast_concat]
  rw [joinNL_splitNL]

theorem sanitize_single_line {raw : Str}
    (h1 : pyStartsWith (stripL raw) "```".data = true)
    (h2 : '\n' ∉ stripL raw) : sanitize raw = [] := by
  simp only [sanitize]
  rw [if_pos h1, splitNL_of_no_nl h2]
  rfl

theorem finalizeSql_of_sanitize_nil {scheme raw : Str} (h : sanitize raw = []) :
    finalizeSql scheme raw = ";".data := by
  simp only [finalizeSql, h]
  rw [show sqliteRewrite scheme ([] : Str) = [] from by
    rw [sqliteRewrite, show isInfixL "information_schema.tables".data (lowerStr []) = false
      from rfl]
    simp]
  rfl

theorem finalizeSql_endsWith_semi (scheme raw : Str) :
    pyEndsWith (finalizeSql scheme raw) ";".data = true := by
  simp only [finalizeSql]
  by_cases h : pyEndsWith (sqliteRewrite scheme (sanitize raw)) ";".data = true
  · rw [if_pos h]
    exact h
  · rw [if_neg h]
    exact pyEndsWith_append_semi _

theorem get_list_tables_query_postgres {s : Str}
    (h : pyStartsWith s "postgres".data = true) :
    get_list_tables_query s =
      "SELECT table_name FROM information_schema.tables WHERE table_schema=\x27public\x27;".data := by
  rw [get_list_tables_query, if_pos h]

theorem get_list_tables_query_mysql {s : Str}
    (h : pyStartsWith s "mysql".data = true) :
    get_list_tables_query s = "SHOW TABLES;".data := by
  rw [get_list_tables_query, if_neg (by simp [not_postgres_of_mysql h]), if_pos h]

theorem get_list_tables_query_sqlite {s : Str}
    (h : pyStartsWith s "sqlite".data = true) :
    get_list_tables_query s = "SELECT name FROM sqlite_master WHERE type=\x27table\x27;".data := by
  rw [get_list_tables_query, if_neg (by simp [not_postgres_of_sqlite h]),
    if_neg (by simp [not_mysql_of_sqlite h]), if_pos h]

theorem get_list_tables_query_ne_nil {s : Str}
    (h : pyStartsWith s "postgres".data = true ∨ pyStartsWith s "mysql".data = true ∨
      pyStartsWith s "sqlite".data = true) :
    (get_list_tables_query s).isEmpty = false := by
  rcases h with h | h | h
  · rw [get_list_tables_query_postgres h]
    rfl
  · rw [get_list_tables_query_mysql h]
    rfl
  · rw [get_list_tables_query_sqlite h]
    rfl

/-! Claim C1.  The claim says every finalized SQL string ends with exactly one
trailing terminator.  The code (`src/main.py` lines 202-203) only appends a
terminator when one is absent, so a model output already ending in two
terminators is kept unchanged: the claim fails.  What holds is that every
finalized SQL string ends with at least one terminator. -/

/-- Claim C1, counterexample: for the model output `select 1;;` in SQL mode
(postgres dialect), the finalized query is unchanged and ends with two
statement terminators, so it does not end with exactly one. -/
theorem C1_counterexample :
    finalizeSql "postgres".data "select 1;;".data = "select 1;;".data ∧
    pyEndsWith (finalizeSql "postgres".data "select 1;;".data) ";;".data = true := by
  constructor
  · decide
  · decide

/-- Claim C1, amended: for every dialect and every raw model output processed
in SQL mode, the finalized SQL string (after fence stripping and the sqlite
rewrite) ends with at least one trailing statement terminator; one is
appended exactly when the sanitized query does not already end in one, and a
query already ending in several terminators keeps them all. -/
theorem C1_amended (scheme raw : Str) :
    pyEndsWith (finalizeSql scheme raw) ";".data = true :=
  finalizeSql_endsWith_semi scheme raw

/-! Claim C6.  The sqlite `information_schema` rewrite. -/

/-- Claim C6: for the sqlite-family dialect, every generated query containing
the substring `information_schema.tables` (case-insensitively) is replaced in
full by the canonical `sqlite_master` table-listing query, and the rewrite is
idempotent. -/
theorem C6_theorem (scheme sql : Str)
    (hs : pyStartsWith scheme "sqlite".data = true) :
    (isInfixL "information_schema.tables".data (lowerStr sql) = true →
      sqliteRewrite scheme sql = sqliteMasterQuery) ∧
    sqliteRewrite scheme (sqliteRewrite scheme sql) = sqliteRewrite scheme sql := by
  constructor
  · intro hc
    rw [sqliteRewrite, if_pos (by rw [hs, hc]; rfl)]
  · by_cases hc : isInfixL "information_schema.tables".data (lowerStr sql) = true
    · have hinner : sqliteRewrite scheme sql = sqliteMasterQuery := by
        rw [sqliteRewrite, if_pos (by rw [hs, hc]; rfl)]
      rw [hinner, sqliteRewrite, if_neg (by
        rw [show isInfixL "information_schema.tables".data (lowerStr sqliteMasterQuery) = false
          from by decide]
        simp)]
    · rw [Bool.not_eq_true] at hc
      have hinner : sqliteRewrite scheme sql = sql := by
        rw [sqliteRewrite, if_neg (by rw [hc]; simp)]
      rw [hinner]
      exact hinner

/-- Claim C6, witness: a sqlite-dialect query that mentions
`Information_Schema.Tables` is rewritten to the canonical `sqlite_master`
query, and rewriting again changes nothing. -/
theorem C6_witness :
    sqliteRewrite "sqlite".data "SELECT * FROM Information_Schema.Tables".data
        = sqliteMasterQuery ∧
    sqliteRewrite "sqlite".data
        (sqliteRewrite "sqlite".data "SELECT * FROM Information_Schema.Tables".data)
      = sqliteRewrite "sqlite".data "SELECT * FROM Information_Schema.Tables".data := by
  have h := C6_theorem "sqlite".data "SELECT * FROM Information_Schema.Tables".data
    (by decide)
  exact ⟨h.1 (by decide), h.2⟩

/-! Claim C5.  The fence round trip of the output sanitizer. -/

/-- Claim C5: wrapping any text in a triple-backtick code fence (a fence line
before and after, each fence line allowed to carry extra non-newline content
such as a language tag) and applying the sanitizer returns the original text
trimmed of surrounding whitespace: the sanitizer removes exactly the first
and last line of a fenced input, regardless of interior content. -/
theorem C5_theorem (a t b : Str) (ha : '\n' ∉ a) (hb : '\n' ∉ b) :
    sanitize (("```".data ++ a) ++ '\n' :: (t ++ '\n' :: ("```".data ++ b)))
      = stripL t :=
  sanitize_fenced a t b ha hb

/-- Claim C5, witness: sanitizing a plain fenced block returns the interior
trimmed of its surrounding whitespace. -/
theorem C5_witness :
    sanitize "```\n SELECT 1 \n```".data = "SELECT 1".data :=
  C5_theorem [] " SELECT 1 ".data [] (by decide) (by decide)

/-! Further prefix-disjointness lemmas, used for the scheme dispatch table. -/

theorem not_postgres_of_mongodb {s : Str}
    (h : pyStartsWith s "mongodb".data = true) :
    pyStartsWith s "postgres".data = false :=
  pyStartsWith_false_head (by decide) h

theorem not_mysql_of_mongodb {s : Str}
    (h : pyStartsWith s "mongodb".data = true) :
    pyStartsWith s "mysql".data = false :=
  pyStartsWith_false_second (by decide) h

theorem not_sqlite_of_mongodb {s : Str}
    (h : pyStartsWith s "mongodb".data = true) :
    pyStartsWith s "sqlite".data = false :=
  pyStartsWith_false_head (by decide) h

/-! Pipeline-unfolding lemmas for the relational branch. -/

theorem pipelineCore_general {env : Env} {scheme raw : Str}
    (hurl : urlparseScheme env.url = .ok scheme)
    (hmongo : pyStartsWith scheme "mongodb".data = false)
    (hbranch : (matchesListTables env.question &&
      !(get_list_tables_query scheme).isEmpty) = false)
    (hmodel : env.modelOut = .ok raw) :
    pipelineCore env =
      match env.execSql (finalizeSql scheme raw) with
      | .error msg =>
        if isInfixL "does not exist".data msg ||
           isInfixL "UndefinedTable".data msg then
          .err 400 (msg ++ ". Available tables: ".data ++ availableOf env.introspection)
        else .err 400 ("SQL execution error: ".data ++ msg)
      | .ok none => .ok (finalizeSql scheme raw) [] []
      | .ok (some (cols, rows)) => .ok (finalizeSql scheme raw) cols rows := by
  rw [pipelineCore, hurl]
  simp only [hmongo, Bool.false_eq_true, if_false, hbranch, hmodel]

theorem pipelineCore_listTables {env : Env} {scheme : Str}
    (hurl : urlparseScheme env.url = .ok scheme)
    (hdial : pyStartsWith scheme "postgres".data = true ∨
      pyStartsWith scheme "mysql".data = true ∨
      pyStartsWith scheme "sqlite".data = true)
    (hq : matchesListTables env.question = true) :
    pipelineCore env =
      match env.execListTables (get_list_tables_query scheme) with
      | .error e => .err 400 ("Error executing list tables query: ".data ++ e)
      | .ok (cols, rows) => .ok (get_list_tables_query scheme) cols rows := by
  have hmongo : pyStartsWith scheme "mongodb".data = false := by
    rcases hdial with h | h | h
    · exact not_mongodb_of_postgres h
    · exact not_mongodb_of_mysql h
    · exact not_mongodb_of_sqlite h
  have hne := get_list_tables_query_ne_nil hdial
  rw [pipelineCore, hurl]
  simp only [hmongo, Bool.false_eq_true, if_false, hq, hne, Bool.not_false,
    Bool.and_true, if_true]

/-! Claim C7.  Row-less statements are valid successes. -/

/-- Claim C7: for every relational request taking the general SQL path whose
execution succeeds without producing a row set (pure DDL/DML), the response
is a status-200 success with empty `columns` and empty `rows`, and the run is
recorded in history like any success. -/
theorem C7_theorem (env : Env) (store : List HistoryEntryM) (scheme raw : Str)
    (hurl : urlparseScheme env.url = .ok scheme)
    (hmongo : pyStartsWith scheme "mongodb".data = false)
    (hbranch : (matchesListTables env.question &&
      !(get_list_tables_query scheme).isEmpty) = false)
    (hmodel : env.modelOut = .ok raw)
    (hexec : env.execSql (finalizeSql scheme raw) = .ok none) :
    translate_and_query env store =
      (.ok (finalizeSql scheme raw) [] [],
        appendEntry store env.question (finalizeSql scheme raw) [] env.now env.historyOk) ∧
    (translate_and_query env store).1.status = 200 := by
  have hc : pipelineCore env = .ok (finalizeSql scheme raw) [] [] := by
    rw [pipelineCore_general hurl hmongo hbranch hmodel, hexec]
  constructor
  · rw [translate_and_query, hc]
  · rw [translate_and_query, hc]
    rfl

/-- Environment for the C7 witness: a sqlite connection, a DDL question, the
model answering with a `CREATE TABLE` statement, and an execution oracle
reporting success with no row set. -/
def envC7 : Env where
  url := "sqlite:///test.db".data
  question := "create table t".data
  introspection := .ok []
  modelOut := .ok "CREATE TABLE t (id INTEGER)".data
  jsonParse := fun _ => .error []
  execMongo := fun _ => .error []
  execListTables := fun _ => .error []
  execSql := fun _ => .ok none
  historyOk := true
  now := "2026-10-12T00:00:00".data

/-- Claim C7, witness: a successful `CREATE TABLE` run returns status 200
with empty columns and rows. -/
theorem C7_witness :
    translate_and_query envC7 [] =
      (.ok "CREATE TABLE t (id INTEGER);".data [] [],
        [⟨1, "create table t".data, "CREATE TABLE t (id INTEGER);".data, [],
          "2026-10-12T00:00:00".data⟩]) ∧
    (translate_and_query envC7 []).1.status = 200 :=
  C7_theorem envC7 [] "sqlite".data "CREATE TABLE t (id INTEGER)".data rfl
    (by decide) (by decide) rfl rfl

/-! Claim C2.  The claim says the `Available tables:` clause is omitted when
introspection failed.  In the code (`src/main.py` lines 223-225) the clause
is part of the f-string unconditionally; only the joined table list depends
on whether `metadata` is populated, so the clause is appended with an empty
list when introspection failed. -/

/-- Environment for the C2 counterexample: schema introspection failed at
engine creation (`metadata` is `None`), and execution fails with a
`does not exist` message. -/
def envC2x : Env where
  url := "postgresql://u:p@h/db".data
  question := "count users".data
  introspection := .engineFail
  modelOut := .ok "SELECT * FROM nosuch".data
  jsonParse := fun _ => .error []
  execMongo := fun _ => .error []
  execListTables := fun _ => .error []
  execSql := fun _ => .error "relation nosuch does not exist".data
  historyOk := true
  now := "2026-10-12T00:00:00".data

/-- Claim C2, counterexample: introspection failed (`engineFail`, the
`metadata is None` case), the execution error contains `does not exist`, and
the error detail still carries the `Available tables:` clause (with an empty
list) instead of omitting it. -/
theorem C2_counterexample :
    envC2x.introspection = .engineFail ∧
    (translate_and_query envC2x []).1 =
      .err 400 "relation nosuch does not exist. Available tables: ".data ∧
    isInfixL "Available tables:".data
      "relation nosuch does not exist. Available tables: ".data = true := by
  refine ⟨rfl, by decide, by decide⟩

/-- Claim C2, amended: for every relational execution failure on the general
SQL path whose message contains `does not exist` or `UndefinedTable`, the
error detail always appends the `Available tables: ...` clause; it lists the
introspected table names when introspection succeeded and degrades to an
empty list when introspection failed (`availableOf` of the introspection
outcome), rather than being omitted. -/
theorem C2_amended (env : Env) (store : List HistoryEntryM) (scheme raw msg : Str)
    (hurl : urlparseScheme env.url = .ok scheme)
    (hmongo : pyStartsWith scheme "mongodb".data = false)
    (hbranch : (matchesListTables env.question &&
      !(get_list_tables_query scheme).isEmpty) = false)
    (hmodel : env.modelOut = .ok raw)
    (hexec : env.execSql (finalizeSql scheme raw) = .error msg)
    (hpat : (isInfixL "does not exist".data msg ||
      isInfixL "UndefinedTable".data msg) = true) :
    translate_and_query env store =
      (.err 400 (msg ++ ". Available tables: ".data ++ availableOf env.introspection),
        store) := by
  have hc : pipelineCore env =
      .err 400 (msg ++ ". Available tables: ".data ++ availableOf env.introspection) := by
    rw [pipelineCore_general hurl hmongo hbranch hmodel, hexec]
    exact if_pos hpat
  rw [translate_and_query, hc]

/-- Environment for the C2 amended witness: introspection succeeded with two
tables, execution fails with an undefined-table message. -/
def envC2w : Env where
  url := "postgresql://u:p@h/db".data
  question := "count users".data
  introspection := .ok [("users".data, ["id".data]), ("orders".data, ["id".data])]
  modelOut := .ok "SELECT * FROM nosuch".data
  jsonParse := fun _ => .error []
  execMongo := fun _ => .error []
  execListTables := fun _ => .error []
  execSql := fun _ => .error "relation nosuch does not exist".data
  historyOk := true
  now := "2026-10-12T00:00:00".data

/-- Claim C2, witness: with successful introspection the enriched detail
lists the known table names after the `Available tables:` clause. -/
theorem C2_witness :
    translate_and_query envC2w [] =
      (.err 400 "relation nosuch does not exist. Available tables: users, orders".data,
        []) :=
  C2_amended envC2w [] "postgresql".data "SELECT * FROM nosuch".data
    "relation nosuch does not exist".data rfl (by decide) (by decide) rfl rfl
    (by decide)

/-! Claim C8.  History append failures never change the response. -/

/-- Claim C8: for every pipeline run, the `/query` response (status and body)
is the same whether the history append succeeds or fails; the swallowed
`except` around the insert (`src/main.py` lines 228-239) makes the response
independent of the history outcome. -/
theorem C8_theorem (env : Env) (store : List HistoryEntryM) (b : Bool) :
    (translate_and_query {env with historyOk := b} store).1 =
    (translate_and_query env store).1 := by
  have hp : pipelineCore {env with historyOk := b} = pipelineCore env := rfl
  rw [translate_and_query, translate_and_query, hp]
  cases pipelineCore env <;> rfl

/-! Claim C10.  A one-line fenced model output sanitizes to the empty
string. -/

/-- Claim C10: for every model output whose stripped form is a single line
beginning with a triple backtick (opening and closing fence on the same
line), the sanitizer yields the empty string; in SQL mode the finalized
query becomes the bare terminator `;`, and in document mode JSON parsing of
the empty string fails, so the request is answered with a 500 generation
error. -/
theorem C10_theorem (env : Env) (store : List HistoryEntryM)
    (raw scheme mscheme jmsg : Str)
    (h1 : pyStartsWith (stripL raw) "```".data = true)
    (h2 : '\n' ∉ stripL raw)
    (hurl : urlparseScheme env.url = .ok mscheme)
    (hmongo : pyStartsWith mscheme "mongodb".data = true)
    (hmodel : env.modelOut = .ok raw)
    (hjson : env.jsonParse [] = .error jmsg) :
    sanitize raw = [] ∧
    finalizeSql scheme raw = ";".data ∧
    translate_and_query env store =
      (.err 500 ("Error generating MongoDB query: ".data ++ jmsg), store) := by
  have hs := sanitize_single_line h1 h2
  refine ⟨hs, finalizeSql_of_sanitize_nil hs, ?_⟩
  have hc : pipelineCore env =
      .err 500 ("Error generating MongoDB query: ".data ++ jmsg) := by
    rw [pipelineCore, hurl]
    simp only [hmongo, if_true, hmodel, hs, hjson]
  rw [translate_and_query, hc]

/-- Environment for the C10 witness: a mongodb connection with the model
answering a one-line fenced output, and a JSON parser that rejects the empty
string. -/
def envC10 : Env where
  url := "mongodb://localhost/testdb".data
  question := "find active users".data
  introspection := .engineFail
  modelOut := .ok "```select 1```".data
  jsonParse := fun _ => .error "Expecting value: line 1 column 1 (char 0)".data
  execMongo := fun _ => .error []
  execListTables := fun _ => .error []
  execSql := fun _ => .error []
  historyOk := true
  now := "2026-10-12T00:00:00".data

/-- Claim C10, witness: the single-line fenced output sanitizes to the empty
string, finalizes to a bare terminator in SQL mode, and yields a 500
generation error in document mode. -/
theorem C10_witness :
    sanitize "```select 1```".data = [] ∧
    finalizeSql "sqlite".data "```select 1```".data = ";".data ∧
    translate_and_query envC10 [] =
      (.err 500 "Error generating MongoDB query: Expecting value: line 1 column 1 (char 0)".data,
        []) :=
  C10_theorem envC10 [] "```select 1```".data "sqlite".data "mongodb".data
    "Expecting value: line 1 column 1 (char 0)".data (by decide) (by decide)
    rfl (by decide) rfl rfl

/-! Claim C3.  The list-tables shortcut bypasses the model. -/

/-- Claim C3: for every request whose question matches the list-tables
pattern and whose scheme is a supported relational dialect, the response is
determined by executing the fixed dialect-specific table-listing statement
alone — the returned `sql` is that fixed statement, and the whole result is
independent of the model oracle, so the model client is never consulted. -/
theorem C3_theorem (env : Env) (store : List HistoryEntryM) (scheme : Str)
    (x : Except Str Str)
    (hurl : urlparseScheme env.url = .ok scheme)
    (hdial : pyStartsWith scheme "postgres".data = true ∨
      pyStartsWith scheme "mysql".data = true ∨
      pyStartsWith scheme "sqlite".data = true)
    (hq : matchesListTables env.question = true) :
    translate_and_query env store =
      (match env.execListTables (get_list_tables_query scheme) with
       | .ok (cols, rows) =>
         (.ok (get_list_tables_query scheme) cols rows,
          appendEntry store env.question (get_list_tables_query scheme) rows
            env.now env.historyOk)
       | .error e =>
         (.err 400 ("Error executing list tables query: ".data ++ e), store)) ∧
    translate_and_query {env with modelOut := x} store =
      translate_and_query env store := by
  have h1 := pipelineCore_listTables hurl hdial hq
  have h2 : pipelineCore {env with modelOut := x} =
      match env.execListTables (get_list_tables_query scheme) with
      | .error e => .err 400 ("Error executing list tables query: ".data ++ e)
      | .ok (cols, rows) => .ok (get_list_tables_query scheme) cols rows :=
    pipelineCore_listTables hurl hdial hq
  constructor
  · cases hel : env.execListTables (get_list_tables_query scheme) with
    | error e =>
      rw [translate_and_query, h1, hel]
    | ok p =>
      obtain ⟨cols, rows⟩ := p
      rw [translate_and_query, h1, hel]
  · cases hel : env.execListTables (get_list_tables_query scheme) with
    | error e =>
      rw [translate_and_query, translate_and_query, h1, h2, hel]
    | ok p =>
      obtain ⟨cols, rows⟩ := p
      rw [translate_and_query, translate_and_query, h1, h2, hel]

/-- Environment for the C3 witness: question `list tables` against a
postgres connection; the model oracle is an error sentinel that would fail
the request if it were ever consulted. -/
def envC3 : Env where
  url := "postgresql://u:p@h/db".data
  question := "list tables".data
  introspection := .ok []
  modelOut := .error "model should not be invoked".data
  jsonParse := fun _ => .error []
  execMongo := fun _ => .error []
  execListTables := fun _ =>
    .ok (["table_name".data], [[("table_name".data, "users".data)]])
  execSql := fun _ => .error []
  historyOk := true
  now := "2026-10-12T00:00:00".data

/-- Claim C3, witness: `list tables` on `postgresql://u:p@h/db` executes the
fixed postgres table-listing statement, returns it as `sql`, and swapping
the model oracle (here from an error sentinel to a successful completion)
leaves the response unchanged. -/
theorem C3_witness :
    translate_and_query envC3 [] =
      (.ok
        "SELECT table_name FROM information_schema.tables WHERE table_schema=\x27public\x27;".data
        ["table_name".data] [[("table_name".data, "users".data)]],
       [⟨1, "list tables".data,
         "SELECT table_name FROM information_schema.tables WHERE table_schema=\x27public\x27;".data,
         [[("table_name".data, "users".data)]], "2026-10-12T00:00:00".data⟩]) ∧
    translate_and_query {envC3 with modelOut := .ok "SELECT 1".data} [] =
      translate_and_query envC3 [] :=
  C3_theorem envC3 [] "postgresql".data (.ok "SELECT 1".data) rfl
    (Or.inl (by decide)) (by decide)

/-! Claim C4.  The claim says dialect classification is total with no failure
path for any input string.  Classification of a parsed scheme is indeed a
deterministic total function matching the dispatch table, but URL parsing
itself (CPython `urlsplit`, `src/main.py` line 104) raises `ValueError`
on a mismatched square bracket in the authority, which surfaces as a
generic 500, so there is a failure path before classification. -/

/-- Environment for the C4 counterexample: a connection URL with a mismatched
IPv6 bracket in its authority. -/
def envC4 : Env where
  url := "postgres://[h/db".data
  question := "count users".data
  introspection := .engineFail
  modelOut := .ok "SELECT 1".data
  jsonParse := fun _ => .error []
  execMongo := fun _ => .error []
  execListTables := fun _ => .error []
  execSql := fun _ => .ok none
  historyOk := true
  now := "2026-10-12T00:00:00".data

/-- Claim C4, counterexample: for the input string `postgres://[h/db` the URL
parser raises `Invalid IPv6 URL`, so dialect resolution fails and the request
is answered by the generic 500 handler — a failure path exists. -/
theorem C4_counterexample :
    resolveDialect "postgres://[h/db".data = .error "Invalid IPv6 URL".data ∧
    (translate_and_query envC4 []).1 = .err 500 "Invalid IPv6 URL".data :=
  ⟨rfl, by decide⟩

/-- Claim C4, amended: for every connection URL accepted by the URL parser,
dialect classification is a deterministic total function of the parsed
scheme, following the dispatch table exactly (mongodb prefix to
document-store, postgres, mysql and sqlite prefixes to their dialects, and
everything else to the generic relational dialect); URLs rejected by the URL
parser (such as a mismatched IPv6 bracket in the authority) fail before
classification. -/
theorem C4_amended (url scheme : Str) (hurl : urlparseScheme url = .ok scheme) :
    resolveDialect url = .ok (classifyScheme scheme) ∧
    (classifyScheme scheme = .documentStore ↔
      pyStartsWith scheme "mongodb".data = true) ∧
    (classifyScheme scheme = .postgres ↔
      pyStartsWith scheme "postgres".data = true) ∧
    (classifyScheme scheme = .mysql ↔
      pyStartsWith scheme "mysql".data = true) ∧
    (classifyScheme scheme = .sqlite ↔
      pyStartsWith scheme "sqlite".data = true) ∧
    (classifyScheme scheme = .otherSql ↔
      (pyStartsWith scheme "mongodb".data = false ∧
       pyStartsWith scheme "postgres".data = false ∧
       pyStartsWith scheme "mysql".data = false ∧
       pyStartsWith scheme "sqlite".data = false)) := by
  refine ⟨by rw [resolveDialect, hurl]; rfl, ⟨?_, ?_⟩, ⟨?_, ?_⟩, ⟨?_, ?_⟩, ⟨?_, ?_⟩,
    ⟨?_, ?_⟩⟩
  · intro h
    rw [classifyScheme] at h
    repeat' split at h
    all_goals simp_all
  · intro h
    rw [classifyScheme, if_pos h]
  · intro h
    rw [classifyScheme] at h
    repeat' split at h
    all_goals simp_all
  · intro h
    rw [classifyScheme, if_neg (by simp [not_mongodb_of_postgres h]), if_pos h]
  · intro h
    rw [classifyScheme] at h
    repeat' split at h
    all_goals simp_all
  · intro h
    rw [classifyScheme, if_neg (by simp [not_mongodb_of_mysql h]),
      if_neg (by simp [not_postgres_of_mysql h]), if_pos h]
  · intro h
    rw [classifyScheme] at h
    repeat' split at h
    all_goals simp_all
  · intro h
    rw [classifyScheme, if_neg (by simp [not_mongodb_of_sqlite h]),
      if_neg (by simp [not_postgres_of_sqlite h]),
      if_neg (by simp [not_mysql_of_sqlite h]), if_pos h]
  · intro h
    rw [classifyScheme] at h
    repeat' split at h
    all_goals simp_all [Bool.not_eq_true]
  · rintro ⟨hm, hp, hy, hs⟩
    rw [classifyScheme]
    simp [hm, hp, hy, hs]

/-- Claim C4, witness: the scheme of `mysql://u@h/db` parses and classifies
per the dispatch table. -/
theorem C4_witness :
    resolveDialect "mysql://u@h/db".data = .ok (classifyScheme "mysql".data) ∧
    (classifyScheme "mysql".data = .documentStore ↔
      pyStartsWith "mysql".data "mongodb".data = true) ∧
    (classifyScheme "mysql".data = .postgres ↔
      pyStartsWith "mysql".data "postgres".data = true) ∧
    (classifyScheme "mysql".data = .mysql ↔
      pyStartsWith "mysql".data "mysql".data = true) ∧
    (classifyScheme "mysql".data = .sqlite ↔
      pyStartsWith "mysql".data "sqlite".data = true) ∧
    (classifyScheme "mysql".data = .otherSql ↔
      (pyStartsWith "mysql".data "mongodb".data = false ∧
       pyStartsWith "mysql".data "postgres".data = false ∧
       pyStartsWith "mysql".data "mysql".data = false ∧
       pyStartsWith "mysql".data "sqlite".data = false)) :=
  C4_amended "mysql://u@h/db".data "mysql".data rfl

/-! Claim C9.  The `/history` reader returns the most recent entries in
descending order. -/

/-- Claim C9: for every store and non-negative limit `n`, when the stored
`created_at` timestamps are pairwise distinct, `GET /history?limit=n`
returns at most `n` items, strictly descending by `created_at`, each item
deserialized from a stored entry, and exactly the most recent ones: any
stored entry that is not returned is older than every returned item. -/
theorem C9_theorem (store : List HistoryEntryM) (n : Nat)
    (hdist : store.Pairwise (fun a b => a.created_at ≠ b.created_at)) :
    (get_history store n).length ≤ n ∧
    (get_history store n).Pairwise
      (fun x y : HistoryItemM => y.created_at < x.created_at) ∧
    (∀ x ∈ get_history store n, ∃ e ∈ store, toItem e = x) ∧
    (∀ e ∈ store, e.created_at ∉ (get_history store n).map HistoryItemM.created_at →
      ∀ x ∈ get_history store n, e.created_at < x.created_at) := by
  have hperm : List.Perm (List.insertionSort laterEq store) store :=
    List.perm_insertionSort laterEq store
  have hsort : (List.insertionSort laterEq store).Pairwise laterEq :=
    List.sorted_insertionSort laterEq store
  have hdistL : (List.insertionSort laterEq store).Pairwise
      (fun a b => a.created_at ≠ b.created_at) :=
    (hperm.pairwise_iff (fun h => h.symm)).mpr hdist
  have hlt : (List.insertionSort laterEq store).Pairwise
      (fun a b : HistoryEntryM => b.created_at < a.created_at) :=
    (hsort.and hdistL).imp (fun hab => lt_of_le_of_ne hab.1 hab.2.symm)
  have htake : ((List.insertionSort laterEq store).take n).Pairwise
      (fun a b : HistoryEntryM => b.created_at < a.created_at) :=
    List.Pairwise.sublist (List.take_sublist n _) hlt
  refine ⟨?_, ?_, ?_, ?_⟩
  · rw [get_history, List.length_map, List.length_take]
    exact Nat.min_le_left n _
  · rw [get_history]
    exact htake.map toItem (fun a b h => h)
  · intro x hx
    rw [get_history] at hx
    obtain ⟨e, he, rfl⟩ := List.mem_map.mp hx
    exact ⟨e, hperm.mem_iff.mp (List.mem_of_mem_take he), rfl⟩
  · intro e he hnot x hx
    rw [get_history] at hnot hx
    obtain ⟨a, ha, rfl⟩ := List.mem_map.mp hx
    have heL : e ∈ List.insertionSort laterEq store := hperm.mem_iff.mpr he
    have hesplit : e ∈ (List.insertionSort laterEq store).take n ∨
        e ∈ (List.insertionSort laterEq store).drop n := by
      have h0 := heL
      rw [← List.take_append_drop n (List.insertionSort laterEq store)] at h0
      exact List.mem_append.mp h0
    rcases hesplit with h1 | h1
    · exact absurd (List.mem_map.mpr ⟨toItem e, List.mem_map.mpr ⟨e, h1, rfl⟩, rfl⟩) hnot
    · have hpw := hlt
      rw [← List.take_append_drop n (List.insertionSort laterEq store)] at hpw
      exact (List.pairwise_append.mp hpw).2.2 a ha e h1

/-- Store for the C9 witness: three entries with distinct timestamps,
inserted out of chronological order. -/
def histStore : List HistoryEntryM :=
  [⟨1, "q1".data, "s1;".data, [], "2026-10-01T00:00:00".data⟩,
   ⟨2, "q2".data, "s2;".data, [], "2026-10-03T00:00:00".data⟩,
   ⟨3, "q3".data, "s3;".data, [], "2026-10-02T00:00:00".data⟩]

/-- Claim C9, witness: with three stored entries and limit 2, the reader
returns at most 2 items, strictly descending, drawn from the store, and the
omitted entry is older than both returned ones. -/
theorem C9_witness :
    (get_history histStore 2).length ≤ 2 ∧
    (get_history histStore 2).Pairwise
      (fun x y : HistoryItemM => y.created_at < x.created_at) ∧
    (∀ x ∈ get_history histStore 2, ∃ e ∈ histStore, toItem e = x) ∧
    (∀ e ∈ histStore,
      e.created_at ∉ (get_history histStore 2).map HistoryItemM.created_at →
      ∀ x ∈ get_history histStore 2, e.created_at < x.created_at) :=
  C9_theorem histStore 2 (by decide)
